import Mathlib

/-!
Shallow embedding of the chemical-interactions plugin core
(`src/plugin/managers.py` and `src/plugin/utils.py`): the pair-keyed line
cache (`StructurePairManager` / `ShapesLineManager`), its streaming update
pass, the binding-site locator and the complex merger, together with proofs
of the documented properties.

Python strings are modelled as Lean `String`s compared by code points
(Python's `<` on `str`), lists as Lean `List`s, dictionaries as association
lists in insertion order (Python dicts preserve insertion order), and the
render host's stream/bulk calls as explicit data in the result values.
-/

/-! ## Python string comparison (code-point lexicographic) -/

/-- Lexicographic strict order on char lists, as Python compares strings. -/
def charListLt : List Char → List Char → Bool
  | [], [] => false
  | [], _ :: _ => true
  | _ :: _, [] => false
  | a :: as, b :: bs =>
    if a < b then true
    else if b < a then false
    else charListLt as bs

/-- Python `a < b` on strings. -/
def pyStrLt (a b : String) : Bool := charListLt a.data b.data

/-- Python `a <= b` on strings. -/
def pyStrLe (a b : String) : Bool := !(pyStrLt b a)

/-- The ordering `sorted` uses on Python strings, as a proposition. -/
def pyLe (a b : String) : Prop := pyStrLe a b = true

theorem charListLt_irrefl : ∀ x : List Char, charListLt x x = false
  | [] => by simp [charListLt]
  | a :: as => by simp [charListLt, charListLt_irrefl as]

theorem charListLt_asymm : ∀ x y : List Char,
    charListLt x y = true → charListLt y x = false
  | [], [] => by simp [charListLt]
  | [], _ :: _ => by simp [charListLt]
  | _ :: _, [] => by simp [charListLt]
  | a :: as, b :: bs => by
    rcases lt_trichotomy a b with h | h | h
    · simp [charListLt, h, lt_asymm h]
    · subst h
      simp [charListLt, lt_irrefl]
      exact charListLt_asymm as bs
    · simp [charListLt, h, lt_asymm h]

theorem charListLt_trans : ∀ x y z : List Char,
    charListLt x y = true → charListLt y z = true → charListLt x z = true
  | [], [], [], hxy, _ => by simp [charListLt] at hxy
  | [], _ :: _, [], _, hyz => by simp [charListLt] at hyz
  | [], y, _ :: _, _, _ => by simp [charListLt]
  | _ :: _, [], _, hxy, _ => by simp [charListLt] at hxy
  | _ :: _, _ :: _, [], _, hyz => by simp [charListLt] at hyz
  | a :: as, b :: bs, c :: cs, hxy, hyz => by
    rcases lt_trichotomy a b with hab | hab | hab
    · rcases lt_trichotomy b c with hbc | hbc | hbc
      · simp [charListLt, lt_trans hab hbc]
      · subst hbc; simp [charListLt, hab]
      · simp [charListLt, hbc, lt_asymm hbc] at hyz
    · subst hab
      rcases lt_trichotomy a c with hac | hac | hac
      · simp [charListLt, hac]
      · subst hac
        simp [charListLt, lt_irrefl] at hxy hyz ⊢
        exact charListLt_trans as bs cs hxy hyz
      · simp [charListLt, hac, lt_asymm hac] at hyz
    · simp [charListLt, hab, lt_asymm hab] at hxy

theorem charListLt_connex : ∀ x y : List Char,
    x ≠ y → charListLt x y = true ∨ charListLt y x = true
  | [], [], h => absurd rfl h
  | [], _ :: _, _ => Or.inl (by simp [charListLt])
  | _ :: _, [], _ => Or.inr (by simp [charListLt])
  | a :: as, b :: bs, h => by
    rcases lt_trichotomy a b with hab | hab | hab
    · exact Or.inl (by simp [charListLt, hab])
    · subst hab
      have hne : as ≠ bs := fun hh => h (by rw [hh])
      rcases charListLt_connex as bs hne with hc | hc
      · exact Or.inl (by simp [charListLt, lt_irrefl, hc])
      · exact Or.inr (by simp [charListLt, lt_irrefl, hc])
    · exact Or.inr (by simp [charListLt, hab])

instance : DecidableRel pyLe := fun a b => instDecidableEqBool (pyStrLe a b) true

instance : IsTotal String pyLe := by
  constructor
  intro a b
  unfold pyLe pyStrLe pyStrLt
  cases h : charListLt b.data a.data
  · simp
  · simp [charListLt_asymm _ _ h]

instance : IsTrans String pyLe := by
  constructor
  intro a b c hab hbc
  unfold pyLe pyStrLe pyStrLt at hab hbc ⊢
  simp only [Bool.not_eq_true'] at hab hbc ⊢
  by_contra hca
  simp only [Bool.not_eq_false] at hca
  by_cases hcb : c.data = b.data
  · rw [hcb] at hca
    simp [hca] at hab
  · rcases charListLt_connex c.data b.data hcb with h | h
    · simp [h] at hbc
    · have := charListLt_trans _ _ _ h hca
      simp [this] at hab

instance : IsAntisymm String pyLe := by
  constructor
  intro a b hab hba
  unfold pyLe pyStrLe pyStrLt at hab hba
  simp only [Bool.not_eq_true'] at hab hba
  by_cases h : a.data = b.data
  · cases a; cases b; exact congrArg String.mk (by simpa using h)
  · rcases charListLt_connex a.data b.data h with hc | hc
    · simp [hc] at hba
    · simp [hc] at hab

/-- Python `sorted` on a list of strings (stable sort under `<=`). -/
def pySortedStr (l : List String) : List String :=
  List.insertionSort pyLe l

/-- Python `sorted` on a list of machine integers. -/
def pySortedInt (l : List Int) : List Int :=
  List.insertionSort (· ≤ ·) l

theorem pySortedStr_perm_invariant {l l' : List String} (h : l.Perm l') :
    pySortedStr l = pySortedStr l' := by
  apply List.eq_of_perm_of_sorted (r := pyLe)
  · exact ((List.perm_insertionSort pyLe l).trans h).trans
      (List.perm_insertionSort pyLe l').symm
  · exact List.sorted_insertionSort pyLe l
  · exact List.sorted_insertionSort pyLe l'

theorem pySortedInt_perm_invariant {l l' : List Int} (h : l.Perm l') :
    pySortedInt l = pySortedInt l' := by
  apply List.eq_of_perm_of_sorted (r := (· ≤ · : Int → Int → Prop))
  · exact ((List.perm_insertionSort _ l).trans h).trans
      (List.perm_insertionSort _ l').symm
  · exact List.sorted_insertionSort _ l
  · exact List.sorted_insertionSort _ l'

/-! ## Pair keys (`StructurePairManager`, `src/plugin/managers.py` lines 11-31) -/

/-- Literal translation of `StructurePairManager.get_structpair_key`:
the two keys, sorted, joined by the pipe separator. -/
def get_structpair_key (struct1_key struct2_key : String) : String :=
  String.intercalate "|" (pySortedStr [struct1_key, struct2_key])


/-! ## Data model -/

/-- Interaction kinds (`nanome.util.enums.InteractionKind`, external enum);
a representative set of constructors, with their `.name` strings. -/
inductive InteractionKind where
  | HydrogenBond
  | Hydrophobic
  | IonicBond
  | Aromatic
deriving DecidableEq, Repr

/-- Python `kind.name` on the enum member. -/
def InteractionKind.name : InteractionKind → String
  | .HydrogenBond => "HydrogenBond"
  | .Hydrophobic => "Hydrophobic"
  | .IonicBond => "IonicBond"
  | .Aromatic => "Aromatic"

/-- RGBA color (`nanome.util.Color`); channels 0-255. -/
structure Color where
  r : Nat
  g : Nat
  b : Nat
  a : Nat
deriving DecidableEq, Repr

/-- Python `color.rgba`. -/
def Color.rgba (c : Color) : List Nat := [c.r, c.g, c.b, c.a]

/-- Per-kind settings entry of the `interactions_data` mapping:
`{visible: bool, color: (r, g, b)}`. -/
structure LineSettings where
  visible : Bool
  color : Nat × Nat × Nat
deriving DecidableEq, Repr

/-- Modelled from the spec: `InteractionStructure` is defined in
`plugin/models.py`, which is not under `src/`. Per §3 (StructureRef) it
carries an index string (a single id or a comma-joined sorted list of atom
indices) and a conformer/frame identifier; the anchor data is not needed by
the verified operations. -/
structure InteractionStructure where
  index : String
  conformer : Nat
deriving DecidableEq, Repr

/-- Modelled from the spec: `InteractionShapesLine` is defined in
`plugin/models.py`, which is not under `src/`. Per §3 (InteractionLine) it
carries a kind, two endpoint descriptors (atom-index array plus conformer
tag), a visibility flag, an RGBA color and a host-assigned index; per
`managers.py` line 297 it also exposes `structure_indices`, the two
structure index strings of its endpoints. -/
structure InteractionShapesLine where
  atom1_idx_arr : List Int
  atom2_idx_arr : List Int
  atom1_conformation : Nat
  atom2_conformation : Nat
  kind : InteractionKind
  visible : Bool
  color : Color
  index : Nat
  structure_index1 : String
  structure_index2 : String
deriving DecidableEq, Repr

/-- Literal translation of `StructurePairManager.get_structpair_key_for_line`:
sort each endpoint's atom-index array, comma-join each, then sort the two
strings and pipe-join them. -/
def get_structpair_key_for_line (line : InteractionShapesLine) : String :=
  let sorted_atom1_idx_arr := pySortedInt line.atom1_idx_arr
  let sorted_atom2_idx_arr := pySortedInt line.atom2_idx_arr
  let struct1_key := String.intercalate "," (sorted_atom1_idx_arr.map toString)
  let struct2_key := String.intercalate "," (sorted_atom2_idx_arr.map toString)
  String.intercalate "|" (pySortedStr [struct1_key, struct2_key])

/-! ## Molecular structures (`nanome.api.structure` hierarchy)

Positions are modelled with exact integer coordinates: the claims under
verification are about set membership and exact-coordinate matching, not
floating-point rounding, so an exact scalar type is used. -/

/-- A 3-D position with exact coordinates. -/
structure Vec3 where
  x : Int
  y : Int
  z : Int
deriving DecidableEq, Repr

/-- Squared Euclidean distance between two positions. -/
def dist2 (p q : Vec3) : Int :=
  (p.x - q.x) ^ 2 + (p.y - q.y) ^ 2 + (p.z - q.z) ^ 2

structure Atom where
  index : Int
  position : Vec3
  selected : Bool
deriving DecidableEq, Repr

structure Residue where
  index : Int
  atoms : List Atom
deriving DecidableEq, Repr

structure Chain where
  name : String
  residues : List Residue
deriving DecidableEq, Repr

/-- All atoms of a chain, in residue order. -/
def Chain.atoms (ch : Chain) : List Atom :=
  ch.residues.flatMap Residue.atoms

structure Molecule where
  chains : List Chain
deriving DecidableEq, Repr

/-- All atoms of a molecule, in chain order. -/
def Molecule.atoms (mol : Molecule) : List Atom :=
  mol.chains.flatMap Chain.atoms

/-- A complex (`nanome.api.structure.Complex`); named `NanoComplex` here
because Mathlib reserves `Complex` for the complex numbers. -/
structure NanoComplex where
  name : String
  index : Int
  position : Vec3
  rotation : Vec3
  current_frame : Nat
  molecules : List Molecule
deriving DecidableEq, Repr

/-- Python `comp.current_molecule`: the molecule at the current frame, or
`None` when the frame index is out of range. -/
def NanoComplex.current_molecule (c : NanoComplex) : Option Molecule :=
  c.molecules.get? c.current_frame

/-- Python `comp.chains`: chains of every molecule of the complex. -/
def NanoComplex.chains (c : NanoComplex) : List Chain :=
  c.molecules.flatMap Molecule.chains

/-- Python `comp.residues`: residues of every chain of the complex. -/
def NanoComplex.residues (c : NanoComplex) : List Residue :=
  c.chains.flatMap Chain.residues

/-! ## The line cache dictionary

`StructurePairManager.__init__` sets `self._data = defaultdict(list)`.
Python dicts preserve insertion order; the model is an association list with
unique keys, new keys appended at the end.  Subscripting a `defaultdict`
inserts an empty list when the key is absent (auto-vivification), unlike the
`in` membership test, so reading is modelled by `dataGetOrInsert`. -/

abbrev LineData := List (String × List InteractionShapesLine)

/-- Python `key in d` / `d[key]`-without-insertion: first entry with the key. -/
def dataFind (d : LineData) (key : String) : Option (List InteractionShapesLine) :=
  (d.find? (fun kv => kv.1 == key)).map Prod.snd

/-- Python `d[key] = v`: overwrite in place if present, else append. -/
def dataSet (d : LineData) (key : String) (v : List InteractionShapesLine) : LineData :=
  if (dataFind d key).isSome then
    d.map (fun kv => if kv.1 == key then (key, v) else kv)
  else
    d ++ [(key, v)]

/-- Python `d[key]` on a `defaultdict(list)`: return the entry, inserting an
empty list first when the key is absent. -/
def dataGetOrInsert (d : LineData) (key : String) :
    List InteractionShapesLine × LineData :=
  match dataFind d key with
  | some v => (v, d)
  | none => ([], d ++ [(key, [])])

/-! ## ShapesLineManager (`src/plugin/managers.py` lines 172-302) -/

/-- A live writing stream, as handed back by the render host: per §6 it is
bound at creation time to the requested list of entity indices. -/
structure StreamH where
  indices : List Nat
deriving DecidableEq, Repr

/-- State of a `ShapesLineManager`: the pair-keyed cache and the lazily
created stream handle (`_stream`, absent unless set). -/
structure ShapesLineManager where
  _data : LineData
  _stream : Option StreamH
deriving DecidableEq, Repr

/-- Ordering of cache items used by `all_lines`:
`sorted(self._data.items(), key=lambda keyval: keyval[0])`. -/
def itemKeyLE (a b : String × List InteractionShapesLine) : Prop :=
  pyLe a.1 b.1

instance : DecidableRel itemKeyLE := fun a b => instDecidableEqBool (pyStrLe a.1 b.1) true

instance : IsTotal (String × List InteractionShapesLine) itemKeyLE :=
  ⟨fun a b => IsTotal.total (r := pyLe) a.1 b.1⟩

instance : IsTrans (String × List InteractionShapesLine) itemKeyLE :=
  ⟨fun _ _ _ h1 h2 => IsTrans.trans (r := pyLe) _ _ _ h1 h2⟩

/-- Translation of `ShapesLineManager.all_lines`: flatten the cache in
ascending pair-key order. -/
def all_lines (mgr : ShapesLineManager) : List InteractionShapesLine :=
  (List.insertionSort itemKeyLE mgr._data).flatMap Prod.snd

/-- Translation of `ShapesLineManager._destroy_stream`: destroy and drop the
stream handle if one exists, else do nothing. -/
def _destroy_stream (mgr : ShapesLineManager) : ShapesLineManager :=
  { mgr with _stream := none }

/-- Translation of `ShapesLineManager.add_line`: compute the line's pair key
(auto-vivifying read of `self._data[structpair_key]`), and only when no
cached line under that key has the same kind, append the line and destroy
the stream.  The `isinstance` guard cannot fire in the typed model. -/
def add_line (mgr : ShapesLineManager) (line : InteractionShapesLine) :
    ShapesLineManager :=
  let structpair_key := get_structpair_key_for_line line
  let existing := (dataGetOrInsert mgr._data structpair_key).1
  let d1 := (dataGetOrInsert mgr._data structpair_key).2
  let existing_interaction_kinds := existing.map (fun ln => ln.kind)
  if line.kind ∈ existing_interaction_kinds then
    { mgr with _data := d1 }
  else
    _destroy_stream { mgr with _data := dataSet d1 structpair_key (existing ++ [line]) }

/-- Translation of `ShapesLineManager.add_lines`: add each line in order. -/
def add_lines (mgr : ShapesLineManager) (line_list : List InteractionShapesLine) :
    ShapesLineManager :=
  line_list.foldl add_line mgr

/-- Translation of `ShapesLineManager.get_lines_for_structure_pair`: an
auto-vivifying read of `self._data[key]`, so it returns the entry and the
possibly-extended cache. -/
def get_lines_for_structure_pair (mgr : ShapesLineManager)
    (struct1 struct2 : InteractionStructure) :
    List InteractionShapesLine × ShapesLineManager :=
  let key := get_structpair_key struct1.index struct2.index
  ((dataGetOrInsert mgr._data key).1, { mgr with _data := (dataGetOrInsert mgr._data key).2 })

/-- Python `list.remove(x)`: drop the first occurrence, or fail with
`ValueError` when `x` is not in the list. -/
def listRemove (l : List InteractionShapesLine) (x : InteractionShapesLine) :
    Option (List InteractionShapesLine) :=
  match l with
  | [] => none
  | y :: ys =>
    if y = x then some ys
    else (listRemove ys x).map (fun r => y :: r)

instance {ε α : Type} [DecidableEq ε] [DecidableEq α] : DecidableEq (Except ε α) :=
  fun a b =>
    match a, b with
    | .error x, .error y =>
      if h : x = y then isTrue (by rw [h]) else isFalse (fun hh => h (by cases hh; rfl))
    | .error _, .ok _ => isFalse (fun hh => by cases hh)
    | .ok _, .error _ => isFalse (fun hh => by cases hh)
    | .ok x, .ok y =>
      if h : x = y then isTrue (by rw [h]) else isFalse (fun hh => h (by cases hh; rfl))

/-- Outcome of `destroy_lines`: the bulk-destroy calls issued to the render
host (each carrying the exact line batch passed to `Shape.destroy_multiple`),
and either the post-removal manager state with the number of warnings logged,
or a `ValueError` escaping from `list.remove`. -/
structure DestroyOutcome where
  destroy_calls : List (List InteractionShapesLine)
  result : Except Unit (ShapesLineManager × Nat)
deriving DecidableEq, Repr

/-- The removal loop of `ShapesLineManager.destroy_lines`: for each line,
if its pair key is in the cache, `list.remove` it from that entry (raising
`ValueError` when absent from the list); otherwise log a warning. -/
def destroyLinesLoop (d : LineData) (warnings : Nat) :
    List InteractionShapesLine → Except Unit (LineData × Nat)
  | [] => Except.ok (d, warnings)
  | line :: rest =>
    let structpair_key := get_structpair_key_for_line line
    match dataFind d structpair_key with
    | some entry =>
      match listRemove entry line with
      | some entry1 => destroyLinesLoop (dataSet d structpair_key entry1) warnings rest
      | none => Except.error ()
    | none => destroyLinesLoop d (warnings + 1) rest

/-- Translation of `ShapesLineManager.destroy_lines`: one bulk
`Shape.destroy_multiple(lines_to_delete)` call, then the removal loop.
The stream handle is not touched. -/
def destroy_lines (mgr : ShapesLineManager)
    (lines_to_delete : List InteractionShapesLine) : DestroyOutcome :=
  { destroy_calls := [lines_to_delete]
    result :=
      match destroyLinesLoop mgr._data 0 lines_to_delete with
      | Except.ok (d1, w) => Except.ok ({ mgr with _data := d1 }, w)
      | Except.error e => Except.error e }

/-! ## Streaming update pass (`update_interaction_lines`, lines 231-275) -/

/-- Modelled from the spec: `utils.line_in_frame` is imported by the manager
but absent from `src/plugin/utils.py`.  Per §4.5 (FrameMembershipFilter) it
is true iff every atom referenced by either endpoint of the line is present,
by identity, in the given collection of current-frame atoms. -/
def line_in_frame (line : InteractionShapesLine) (atoms : List Atom) : Bool :=
  (line.atom1_idx_arr ++ line.atom2_idx_arr).all
    (fun i => atoms.any (fun a => a.index == i))

/-- The atom iterator built inside the update loop:
`itertools.chain.from_iterable(cmp.current_molecule.atoms for cmp in complexes
if cmp.current_molecule)`. -/
def frame_atoms (complexes : List NanoComplex) : List Atom :=
  (complexes.filterMap NanoComplex.current_molecule).flatMap Molecule.atoms

/-- The color computed for one line in the update loop (lines 261-267):
`hide_interaction = not form_data.visible or not line_is_in_frame`;
the configured RGB with alpha 0 when hidden, else 255. -/
def computeLineColor (interactions_data : String → LineSettings)
    (atoms : List Atom) (line : InteractionShapesLine) : Color :=
  let form_data := interactions_data line.kind.name
  let hide_interaction := !form_data.visible || !(line_in_frame line atoms)
  { r := form_data.color.1
    g := form_data.color.2.1
    b := form_data.color.2.2
    a := if hide_interaction then 0 else 255 }

/-- Translation of `ShapesLineManager._update_line`: recompute the pair key
from `line.structure_indices` (an auto-vivifying `self._data[key]` read) and
replace the first stored line with the same host index. -/
def _update_line (d : LineData) (line : InteractionShapesLine) : LineData :=
  let structpair_key := get_structpair_key line.structure_index1 line.structure_index2
  let line_list := (dataGetOrInsert d structpair_key).1
  let d1 := (dataGetOrInsert d structpair_key).2
  let replaced :=
    match line_list.findIdx? (fun stored_line => stored_line.index == line.index) with
    | some i => line_list.set i line
    | none => line_list
  dataSet d1 structpair_key replaced

/-- Result tag of one `update_interaction_lines` call: the two warning early
returns, the stream-creation failure, or completion carrying the RGBA buffer
pushed to the stream. -/
inductive UpdateResult where
  | warnNoComplexes
  | warnNoLines
  | errStreamCreate
  | ok (pushed : List Nat)
deriving DecidableEq, Repr

/-- Translation of `ShapesLineManager.update_interaction_lines`.  The render
host's `plugin.create_writing_stream(line_indices, stream_type)` is the
function argument `create`; per §6 it returns a handle bound to the requested
indices, or a falsy value (`none`) on failure.

In the source, each loop iteration mutates the cached line object in place
(`line.color = color`) and then calls `self._update_line(line)`.  The
in-place mutation is modelled by recoloring every cached line (each cached
line is visited exactly once by the loop), after which the `_update_line`
calls are replayed in loop order. -/
def update_interaction_lines (mgr : ShapesLineManager)
    (interactions_data : String → LineSettings) (complexes : List NanoComplex)
    (create : List Nat → Option StreamH) : ShapesLineManager × UpdateResult :=
  if complexes.isEmpty then
    (mgr, UpdateResult.warnNoComplexes)
  else
    let lines := all_lines mgr
    let line_indices := lines.map (fun line => line.index)
    if line_indices.isEmpty then
      (mgr, UpdateResult.warnNoLines)
    else
      let stream1 :=
        match mgr._stream with
        | some s => some s
        | none => create line_indices
      match stream1 with
      | none => ({ mgr with _stream := none }, UpdateResult.errStreamCreate)
      | some s =>
        let atoms := frame_atoms complexes
        let new_colors :=
          lines.flatMap (fun line => (computeLineColor interactions_data atoms line).rgba)
        let recolored := mgr._data.map (fun kv =>
          (kv.1, kv.2.map (fun line =>
            { line with color := computeLineColor interactions_data atoms line })))
        let replayed := lines.foldl (fun d line =>
          _update_line d { line with color := computeLineColor interactions_data atoms line })
          recolored
        ({ _data := replayed, _stream := some s }, UpdateResult.ok new_colors)

/-! ## Utilities (`src/plugin/utils.py`) -/

/-- Translation of `extract_residues_from_complex`: copy the complex's
header data into a fresh one-molecule complex, keeping only (per chain)
the residues whose index appears in `residue_list`; chains that end up
empty are dropped. -/
def extract_residues_from_complex (comp : NanoComplex) (residue_list : List Residue)
    (comp_name : Option String) : NanoComplex :=
  let binding_site_residue_indices := residue_list.map (fun r => r.index)
  let new_chains := comp.chains.filterMap (fun ch =>
    let reses_on_chain := ch.residues.filter
      (fun res => binding_site_residue_indices.contains res.index)
    if reses_on_chain.isEmpty then none
    else some { name := ch.name, residues := reses_on_chain })
  { name := comp_name.getD comp.name
    index := -1
    position := comp.position
    rotation := comp.rotation
    current_frame := 0
    molecules := [{ chains := new_chains }] }

/-- Helper for `pyStartsWith`: the first list is a leading segment of the
second. -/
def leadingSegment : List Char → List Char → Bool
  | [], _ => true
  | _ :: _, [] => false
  | a :: as, b :: bs => a == b && leadingSegment as bs

/-- Python `s.startswith(p)`. -/
def pyStartsWith (s p : String) : Bool :=
  leadingSegment p.data s.data

/-- Closed-ball test of `KDTree.query_ball_point`: a point is within
`site_size` of a query point iff the squared distance is at most
`site_size ** 2` (radii are nonnegative; a negative radius matches
nothing). -/
def inBall (p q : Vec3) (site_size : Int) : Bool :=
  0 ≤ site_size && dist2 p q ≤ site_size ^ 2

/-- Translation of `calculate_binding_site_atoms`: take the current frame's
molecule (`none` if `current_frame` is out of range, where the source's
`next(...)` raises), build the search set from the atoms of chains whose
name does not start with `"H"` (`none` when that set is empty, where
`KDTree` construction fails), collect the positions of search-set atoms
within `site_size` of any ligand atom, and return every atom of the
molecule whose position is in that collection. -/
def calculate_binding_site_atoms (target_reference : NanoComplex)
    (ligand_atoms : List Atom) (site_size : Int) : Option (List Atom) :=
  match target_reference.molecules.get? target_reference.current_frame with
  | none => none
  | some mol =>
    let ligand_positions := ligand_atoms.map (fun atom => atom.position)
    let target_atoms := (mol.chains.filter
      (fun ch => !(pyStartsWith ch.name "H"))).flatMap Chain.atoms
    if target_atoms.isEmpty then none
    else
      let near_point_set := ligand_positions.flatMap (fun lp =>
        (target_atoms.map (fun atom => atom.position)).filter
          (fun tp => inBall tp lp site_size))
      some (mol.atoms.filter (fun targ_atom => near_point_set.contains targ_atom.position))

/-- Modelled from the spec: `ComplexUtils.align_to` belongs to the external
`nanome` library (§6, alignment utility); per §4.7 it mutates only the
complex's position and rotation, transforming it onto the reference. -/
def align_to (comp align_reference : NanoComplex) : NanoComplex :=
  { comp with
    position := align_reference.position
    rotation := align_reference.rotation }

/-- One iteration of the `merge_complexes` loop: align the complex to the
reference, take its current-frame molecule (`none` aborts, where the
source's `next(...)` raises), and append either the selected-residue
extraction's chains or every chain of that molecule. -/
def mergeStep (align_reference : NanoComplex) (selected_atoms_only : Bool)
    (acc : Option (List Chain)) (comp : NanoComplex) : Option (List Chain) :=
  match acc with
  | none => none
  | some chains_so_far =>
    let comp1 := align_to comp align_reference
    match comp1.molecules.get? comp1.current_frame with
    | none => none
    | some existing_mol =>
      if selected_atoms_only && comp1.index != align_reference.index then
        let selected_residues := comp1.residues.filter
          (fun res => res.atoms.any (fun a => a.selected))
        let extracted_comp := extract_residues_from_complex comp1 selected_residues none
        some (chains_so_far ++ extracted_comp.chains)
      else
        some (chains_so_far ++ existing_mol.chains)

/-- Translation of `merge_complexes`: build a fresh one-molecule complex and
graft onto it, for each input in order, the chains `mergeStep` selects. -/
def merge_complexes (complexes : List NanoComplex) (align_reference : NanoComplex)
    (selected_atoms_only : Bool) : Option NanoComplex :=
  match complexes.foldl (mergeStep align_reference selected_atoms_only) (some []) with
  | none => none
  | some all_chains =>
    some { name := "", index := 0, position := { x := 0, y := 0, z := 0 },
           rotation := { x := 0, y := 0, z := 0 }, current_frame := 0,
           molecules := [{ chains := all_chains }] }

/-! ## Dictionary lemmas -/

theorem dataFind_cons (kv : String × List InteractionShapesLine) (tl : LineData)
    (k : String) :
    dataFind (kv :: tl) k = if kv.1 == k then some kv.2 else dataFind tl k := by
  unfold dataFind
  by_cases h : kv.1 == k
  · simp [List.find?_cons_of_pos _ h, h]
  · simp [List.find?_cons_of_neg _ h, h]

theorem dataFind_append_of_none {d : LineData} {k : String}
    (h : dataFind d k = none) (v : List InteractionShapesLine) :
    dataFind (d ++ [(k, v)]) k = some v := by
  induction d with
  | nil => simp [dataFind]
  | cons kv tl ih =>
    rw [dataFind_cons] at h
    by_cases hk : kv.1 == k
    · simp [hk] at h
    · simp only [hk, Bool.false_eq_true, if_false] at h
      rw [List.cons_append, dataFind_cons]
      simp only [hk, Bool.false_eq_true, if_false]
      exact ih h

theorem dataGetOrInsert_fst (d : LineData) (k : String) :
    (dataGetOrInsert d k).1 = (dataFind d k).getD [] := by
  unfold dataGetOrInsert
  cases h : dataFind d k <;> simp [h]

theorem dataFind_dataGetOrInsert (d : LineData) (k : String) :
    dataFind (dataGetOrInsert d k).2 k = some ((dataFind d k).getD []) := by
  unfold dataGetOrInsert
  cases h : dataFind d k with
  | none => simpa using dataFind_append_of_none h []
  | some v => simpa using h

theorem dataFind_map_overwrite (k : String) (v : List InteractionShapesLine) :
    ∀ d : LineData, (dataFind d k).isSome →
      dataFind (d.map (fun kv => if kv.1 == k then (k, v) else kv)) k = some v := by
  intro d
  induction d with
  | nil => intro h; simp [dataFind] at h
  | cons kv tl ih =>
    intro h
    rw [dataFind_cons] at h
    by_cases hk : kv.1 == k
    · simp only [List.map_cons, hk, if_true]
      rw [dataFind_cons]
      simp
    · simp only [hk, Bool.false_eq_true, if_false] at h
      simp only [List.map_cons, hk, Bool.false_eq_true, if_false]
      rw [dataFind_cons]
      simp only [hk, Bool.false_eq_true, if_false]
      exact ih h

theorem dataFind_dataSet_self (d : LineData) (k : String)
    (v : List InteractionShapesLine) :
    dataFind (dataSet d k v) k = some v := by
  unfold dataSet
  by_cases h : (dataFind d k).isSome
  · rw [if_pos h]
    exact dataFind_map_overwrite k v d h
  · rw [if_neg h]
    exact dataFind_append_of_none (by cases hh : dataFind d k <;> simp_all) v

/-! ## C8: commutativity of the pair key -/

/-- C8: for every pair of identifiers, `get_structpair_key(a, b)` equals
`get_structpair_key(b, a)` — the key is the two strings sorted and joined
with the `"|"` separator — and on the concrete atom-index strings `"1,2"`
and `"5"` the key is `"1,2|5"`. -/
theorem C8_structpair_key_commutative :
    (∀ a b : String, get_structpair_key a b = get_structpair_key b a) ∧
    get_structpair_key "1,2" "5" = "1,2|5" := by
  constructor
  · intro a b
    unfold get_structpair_key
    rw [pySortedStr_perm_invariant (List.Perm.swap b a [])]
  · decide

/-- Witness for C8 at concrete identifiers. -/
theorem C8_structpair_key_commutative_witness :
    get_structpair_key "5" "1,2" = get_structpair_key "1,2" "5" :=
  C8_structpair_key_commutative.1 "5" "1,2"

/-! ## C9: endpoint-order invariance of the per-line pair key -/

/-- C9: `get_structpair_key_for_line` is unchanged when the line's two
endpoint atom-index arrays (with their conformer tags) are swapped, and
unchanged under any reordering of the indices inside either endpoint array:
each array is sorted and comma-joined, and the two strings are sorted before
being pipe-joined. -/
theorem C9_structpair_key_for_line_invariant (line : InteractionShapesLine)
    (l1 l2 : List Int)
    (h1 : l1.Perm line.atom1_idx_arr) (h2 : l2.Perm line.atom2_idx_arr) :
    get_structpair_key_for_line
      { line with
        atom1_idx_arr := line.atom2_idx_arr
        atom2_idx_arr := line.atom1_idx_arr
        atom1_conformation := line.atom2_conformation
        atom2_conformation := line.atom1_conformation } =
      get_structpair_key_for_line line ∧
    get_structpair_key_for_line { line with atom1_idx_arr := l1, atom2_idx_arr := l2 } =
      get_structpair_key_for_line line := by
  constructor
  · simp only [get_structpair_key_for_line]
    rw [pySortedStr_perm_invariant (List.Perm.swap _ _ [])]
  · simp only [get_structpair_key_for_line]
    rw [pySortedInt_perm_invariant h1, pySortedInt_perm_invariant h2]

/-- Witness for C9: a concrete line with endpoint arrays `[2, 1]` and `[5]`. -/
theorem C9_structpair_key_for_line_invariant_witness :
    ([1, 2] : List Int).Perm [2, 1] ∧ ([5] : List Int).Perm [5] ∧
    get_structpair_key_for_line
      { atom1_idx_arr := [5], atom2_idx_arr := [2, 1],
        atom1_conformation := 0, atom2_conformation := 1,
        kind := InteractionKind.HydrogenBond, visible := true,
        color := { r := 0, g := 0, b := 0, a := 255 }, index := 3,
        structure_index1 := "2,1", structure_index2 := "5" } =
      get_structpair_key_for_line
      { atom1_idx_arr := [2, 1], atom2_idx_arr := [5],
        atom1_conformation := 1, atom2_conformation := 0,
        kind := InteractionKind.HydrogenBond, visible := true,
        color := { r := 0, g := 0, b := 0, a := 255 }, index := 3,
        structure_index1 := "2,1", structure_index2 := "5" } ∧
    get_structpair_key_for_line
      { atom1_idx_arr := [1, 2], atom2_idx_arr := [5],
        atom1_conformation := 1, atom2_conformation := 0,
        kind := InteractionKind.HydrogenBond, visible := true,
        color := { r := 0, g := 0, b := 0, a := 255 }, index := 3,
        structure_index1 := "2,1", structure_index2 := "5" } =
      get_structpair_key_for_line
      { atom1_idx_arr := [2, 1], atom2_idx_arr := [5],
        atom1_conformation := 1, atom2_conformation := 0,
        kind := InteractionKind.HydrogenBond, visible := true,
        color := { r := 0, g := 0, b := 0, a := 255 }, index := 3,
        structure_index1 := "2,1", structure_index2 := "5" } := by
  refine ⟨by decide, by decide, ?_⟩
  exact C9_structpair_key_for_line_invariant
    { atom1_idx_arr := [2, 1], atom2_idx_arr := [5],
      atom1_conformation := 1, atom2_conformation := 0,
      kind := InteractionKind.HydrogenBond, visible := true,
      color := { r := 0, g := 0, b := 0, a := 255 }, index := 3,
      structure_index1 := "2,1", structure_index2 := "5" }
    [1, 2] [5] (by decide) (by decide)

/-! ## C10: the auto-vivifying pair lookup -/

/-- C10: calling `get_lines_for_structure_pair` on a pair with no cached
lines returns an empty list and also mutates the cache: the pair key, absent
before the query, is present afterwards and maps to an empty list. -/
theorem C10_get_lines_auto_vivifies (mgr : ShapesLineManager)
    (struct1 struct2 : InteractionStructure)
    (h : dataFind mgr._data (get_structpair_key struct1.index struct2.index) = none) :
    (get_lines_for_structure_pair mgr struct1 struct2).1 = [] ∧
    dataFind ((get_lines_for_structure_pair mgr struct1 struct2).2)._data
      (get_structpair_key struct1.index struct2.index) = some [] := by
  unfold get_lines_for_structure_pair
  refine ⟨?_, ?_⟩
  · rw [dataGetOrInsert_fst, h]
    rfl
  · have := dataFind_dataGetOrInsert mgr._data
      (get_structpair_key struct1.index struct2.index)
    rw [h] at this
    simpa using this

/-- Witness for C10: an empty manager queried for a concrete pair. -/
theorem C10_get_lines_auto_vivifies_witness :
    dataFind ({ _data := [], _stream := none } : ShapesLineManager)._data
      (get_structpair_key "1,2" "5") = none ∧
    (get_lines_for_structure_pair { _data := [], _stream := none }
      { index := "1,2", conformer := 0 } { index := "5", conformer := 0 }).1 = [] ∧
    dataFind ((get_lines_for_structure_pair { _data := [], _stream := none }
      { index := "1,2", conformer := 0 } { index := "5", conformer := 0 }).2)._data
      (get_structpair_key "1,2" "5") = some [] := by
  refine ⟨by decide, ?_⟩
  exact C10_get_lines_auto_vivifies { _data := [], _stream := none }
    { index := "1,2", conformer := 0 } { index := "5", conformer := 0 } (by decide)

/-! ## C3: deduplication on (pair, kind) in add_line -/

/-- The LineCache invariant of §3: no two entries in a pair's list share the
same kind. -/
def kindsDistinct (d : LineData) : Prop :=
  ∀ kv ∈ d, (kv.2.map (fun l => l.kind)).Nodup

theorem dataGetOrInsert_of_found {d : LineData} {k : String}
    {v : List InteractionShapesLine} (h : dataFind d k = some v) :
    dataGetOrInsert d k = (v, d) := by
  unfold dataGetOrInsert
  rw [h]

theorem mem_dataSet {kv : String × List InteractionShapesLine} {d : LineData}
    {k : String} {v : List InteractionShapesLine} (h : kv ∈ dataSet d k v) :
    kv = (k, v) ∨ kv ∈ d := by
  unfold dataSet at h
  split at h
  · rcases List.mem_map.mp h with ⟨kv0, hkv0, heq⟩
    by_cases hk : kv0.1 == k
    · left
      rw [← heq]
      simp [hk]
    · right
      rw [← heq]
      simpa [hk] using hkv0
  · rcases List.mem_append.mp h with h1 | h1
    · right; exact h1
    · left; simpa using h1

theorem mem_dataGetOrInsert_snd {kv : String × List InteractionShapesLine}
    {d : LineData} {k : String} (h : kv ∈ (dataGetOrInsert d k).2) :
    kv ∈ d ∨ kv = (k, []) := by
  unfold dataGetOrInsert at h
  cases hf : dataFind d k with
  | none =>
    rw [hf] at h
    simp only at h
    rcases List.mem_append.mp h with h1 | h1
    · exact Or.inl h1
    · exact Or.inr (by simpa using h1)
  | some v =>
    rw [hf] at h
    exact Or.inl h

theorem dataFind_entry_mem {d : LineData} {k : String}
    {v : List InteractionShapesLine} (h : dataFind d k = some v) :
    ∃ kv ∈ d, kv.2 = v := by
  unfold dataFind at h
  cases hf : d.find? (fun kv => kv.1 == k) with
  | none => rw [hf] at h; simp at h
  | some kv =>
    rw [hf] at h
    exact ⟨kv, List.mem_of_find?_eq_some hf, by simpa using h⟩

/-- `add_line` when no cached line under the key has the same kind: the line
is appended under its pair key and the stream is destroyed. -/
theorem add_line_insert {mgr : ShapesLineManager} {line : InteractionShapesLine}
    (hfresh : line.kind ∉
      ((dataFind mgr._data (get_structpair_key_for_line line)).getD []).map
        (fun ln => ln.kind)) :
    add_line mgr line =
      { _data :=
          dataSet (dataGetOrInsert mgr._data (get_structpair_key_for_line line)).2
            (get_structpair_key_for_line line)
            (((dataFind mgr._data (get_structpair_key_for_line line)).getD []) ++ [line])
        _stream := none } := by
  simp only [add_line, _destroy_stream, dataGetOrInsert_fst]
  rw [if_neg hfresh]

/-- `add_line` when some cached line under the key already has the same
kind: only the auto-vivifying read happens. -/
theorem add_line_dup {mgr : ShapesLineManager} {line : InteractionShapesLine}
    (hdup : line.kind ∈
      ((dataFind mgr._data (get_structpair_key_for_line line)).getD []).map
        (fun ln => ln.kind)) :
    add_line mgr line =
      { mgr with _data := (dataGetOrInsert mgr._data (get_structpair_key_for_line line)).2 } := by
  simp only [add_line, _destroy_stream, dataGetOrInsert_fst]
  rw [if_pos hdup]

/-- C3: for the shape-backed manager, after `add_line line` on a fresh
(pair, kind), `get_lines_for_structure_pair` on that pair contains the line
exactly once; adding a second line with the same pair key and kind returns
the manager unchanged; and `add_line` preserves the invariant that no
pair's list holds two lines of the same kind. -/
theorem C3_add_line_dedup (mgr : ShapesLineManager)
    (line line2 : InteractionShapesLine) (struct1 struct2 : InteractionStructure)
    (hkey : get_structpair_key struct1.index struct2.index =
      get_structpair_key_for_line line)
    (hfresh : line.kind ∉
      ((dataFind mgr._data (get_structpair_key_for_line line)).getD []).map
        (fun ln => ln.kind))
    (hkey2 : get_structpair_key_for_line line2 = get_structpair_key_for_line line)
    (hkind2 : line2.kind = line.kind) :
    (get_lines_for_structure_pair (add_line mgr line) struct1 struct2).1.count line = 1 ∧
    add_line (add_line mgr line) line2 = add_line mgr line ∧
    (kindsDistinct mgr._data → kindsDistinct (add_line mgr line)._data) := by
  set key := get_structpair_key_for_line line with hkeydef
  set existing := (dataFind mgr._data key).getD [] with hex
  have hfind2 : dataFind (add_line mgr line)._data key = some (existing ++ [line]) := by
    rw [add_line_insert hfresh]
    exact dataFind_dataSet_self _ _ _
  have hnotmem : line ∉ existing := by
    intro hmem
    exact hfresh (List.mem_map.mpr ⟨line, hmem, rfl⟩)
  refine ⟨?_, ?_, ?_⟩
  · simp only [get_lines_for_structure_pair, hkey, dataGetOrInsert_fst, hfind2]
    simp [List.count_append, List.count_eq_zero.mpr hnotmem]
  · have hdup2 : line2.kind ∈
        ((dataFind (add_line mgr line)._data (get_structpair_key_for_line line2)).getD []).map
          (fun ln => ln.kind) := by
      rw [hkey2, hfind2]
      simp [hkind2]
    rw [add_line_dup hdup2, hkey2, dataGetOrInsert_of_found hfind2]
  · intro hdist
    rw [add_line_insert hfresh]
    intro kv hkv
    rcases mem_dataSet hkv with heq | hmem
    · subst heq
      simp only [List.map_append, List.map_cons, List.map_nil]
      rw [List.nodup_append]
      refine ⟨?_, List.nodup_singleton _, ?_⟩
      · rcases hf : dataFind mgr._data key with _ | v
        · simp [hex, hf]
        · rcases dataFind_entry_mem hf with ⟨kv0, hkv0, hv⟩
          have := hdist kv0 hkv0
          rw [hv] at this
          simpa [hex, hf] using this
      · intro x hx hmem
        simp only [List.mem_singleton] at hmem
        subst hmem
        exact hfresh hx
    · rcases mem_dataGetOrInsert_snd hmem with hmem1 | heq1
      · exact hdist kv hmem1
      · subst heq1; simp

/-- Witness for C3 at a concrete manager and lines. -/
theorem C3_add_line_dedup_witness :
    (get_lines_for_structure_pair
      (add_line { _data := [], _stream := none }
        { atom1_idx_arr := [1, 2], atom2_idx_arr := [5],
          atom1_conformation := 0, atom2_conformation := 0,
          kind := InteractionKind.HydrogenBond, visible := true,
          color := { r := 0, g := 0, b := 0, a := 255 }, index := 1,
          structure_index1 := "1,2", structure_index2 := "5" })
      { index := "1,2", conformer := 0 } { index := "5", conformer := 0 }).1.count
      { atom1_idx_arr := [1, 2], atom2_idx_arr := [5],
        atom1_conformation := 0, atom2_conformation := 0,
        kind := InteractionKind.HydrogenBond, visible := true,
        color := { r := 0, g := 0, b := 0, a := 255 }, index := 1,
        structure_index1 := "1,2", structure_index2 := "5" } = 1 ∧
    add_line
      (add_line { _data := [], _stream := none }
        { atom1_idx_arr := [1, 2], atom2_idx_arr := [5],
          atom1_conformation := 0, atom2_conformation := 0,
          kind := InteractionKind.HydrogenBond, visible := true,
          color := { r := 0, g := 0, b := 0, a := 255 }, index := 1,
          structure_index1 := "1,2", structure_index2 := "5" })
      { atom1_idx_arr := [1, 2], atom2_idx_arr := [5],
        atom1_conformation := 0, atom2_conformation := 0,
        kind := InteractionKind.HydrogenBond, visible := false,
        color := { r := 9, g := 9, b := 9, a := 9 }, index := 2,
        structure_index1 := "1,2", structure_index2 := "5" } =
    add_line { _data := [], _stream := none }
      { atom1_idx_arr := [1, 2], atom2_idx_arr := [5],
        atom1_conformation := 0, atom2_conformation := 0,
        kind := InteractionKind.HydrogenBond, visible := true,
        color := { r := 0, g := 0, b := 0, a := 255 }, index := 1,
        structure_index1 := "1,2", structure_index2 := "5" } := by
  have h := C3_add_line_dedup { _data := [], _stream := none }
    { atom1_idx_arr := [1, 2], atom2_idx_arr := [5],
      atom1_conformation := 0, atom2_conformation := 0,
      kind := InteractionKind.HydrogenBond, visible := true,
      color := { r := 0, g := 0, b := 0, a := 255 }, index := 1,
      structure_index1 := "1,2", structure_index2 := "5" }
    { atom1_idx_arr := [1, 2], atom2_idx_arr := [5],
      atom1_conformation := 0, atom2_conformation := 0,
      kind := InteractionKind.HydrogenBond, visible := false,
      color := { r := 9, g := 9, b := 9, a := 9 }, index := 2,
      structure_index1 := "1,2", structure_index2 := "5" }
    { index := "1,2", conformer := 0 } { index := "5", conformer := 0 }
    (by decide) (by decide) (by decide) (by decide)
  exact ⟨h.1, h.2.1⟩

/-! ## C2: error handling of destroy_lines -/

theorem listRemove_eq_erase : ∀ (l : List InteractionShapesLine)
    (x : InteractionShapesLine), x ∈ l → listRemove l x = some (l.erase x)
  | [], x, h => by simp at h
  | y :: ys, x, h => by
    by_cases hyx : y = x
    · subst hyx
      simp [listRemove, List.erase_cons]
    · have hx : x ∈ ys := by
        rcases List.mem_cons.mp h with h1 | h1
        · exact absurd h1.symm hyx
        · exact h1
      simp [listRemove, hyx, listRemove_eq_erase ys x hx, List.erase_cons,
        bne_iff_ne, Ne.symm]

theorem destroyLinesLoop_all_absent {d : LineData} :
    ∀ (batch : List InteractionShapesLine) (w : Nat),
      (∀ line ∈ batch, dataFind d (get_structpair_key_for_line line) = none) →
      destroyLinesLoop d w batch = Except.ok (d, w + batch.length)
  | [], w, _ => by simp [destroyLinesLoop]
  | line :: rest, w, h => by
    have hhead := h line (List.mem_cons_self line rest)
    have htail := fun l hl => h l (List.mem_cons_of_mem line hl)
    simp only [destroyLinesLoop, hhead]
    rw [destroyLinesLoop_all_absent rest (w + 1) htail]
    simp only [List.length_cons]
    ring_nf

/-- C2, amended: `destroy_lines(to_delete)` issues exactly one bulk-destroy
call to the render host containing exactly `to_delete`, then removes each
line from its pair's list.  For every line whose pair key is absent from the
cache it logs a warning and continues processing the rest of the batch; but
when a line's pair key is present and the line is not in that pair's list,
`list.remove` raises `ValueError` and the remaining batch is not processed. -/
theorem C2_destroy_lines_behavior (mgr : ShapesLineManager)
    (to_delete : List InteractionShapesLine) (L : InteractionShapesLine)
    (entry : List InteractionShapesLine)
    (habsent : ∀ line ∈ to_delete,
      dataFind mgr._data (get_structpair_key_for_line line) = none)
    (hfound : dataFind mgr._data (get_structpair_key_for_line L) = some entry)
    (hmem : L ∈ entry) :
    (destroy_lines mgr to_delete).destroy_calls = [to_delete] ∧
    (destroy_lines mgr to_delete).result = Except.ok (mgr, to_delete.length) ∧
    (destroy_lines mgr [L]).result =
      Except.ok ({ mgr with _data := dataSet mgr._data (get_structpair_key_for_line L) (entry.erase L) }, 0) := by
  refine ⟨rfl, ?_, ?_⟩
  · unfold destroy_lines
    rw [destroyLinesLoop_all_absent to_delete 0 habsent]
    simp
  · unfold destroy_lines
    simp only [destroyLinesLoop, hfound, listRemove_eq_erase entry L hmem]

/-- Counterexample for C2 as stated: the pair key is present (another line
of the same pair is cached) but the line itself is not in the pair's list,
and `destroy_lines` raises `ValueError` instead of logging a warning and
continuing. -/
theorem C2_counterexample :
    dataFind
      ({ _data := [(get_structpair_key "1,2" "5",
          [{ atom1_idx_arr := [1, 2], atom2_idx_arr := [5],
             atom1_conformation := 0, atom2_conformation := 0,
             kind := InteractionKind.IonicBond, visible := true,
             color := { r := 0, g := 0, b := 0, a := 255 }, index := 8,
             structure_index1 := "1,2", structure_index2 := "5" }])],
         _stream := none } : ShapesLineManager)._data
      (get_structpair_key_for_line
        { atom1_idx_arr := [1, 2], atom2_idx_arr := [5],
          atom1_conformation := 0, atom2_conformation := 0,
          kind := InteractionKind.HydrogenBond, visible := true,
          color := { r := 0, g := 0, b := 0, a := 255 }, index := 7,
          structure_index1 := "1,2", structure_index2 := "5" }) ≠ none ∧
    (destroy_lines
      { _data := [(get_structpair_key "1,2" "5",
          [{ atom1_idx_arr := [1, 2], atom2_idx_arr := [5],
             atom1_conformation := 0, atom2_conformation := 0,
             kind := InteractionKind.IonicBond, visible := true,
             color := { r := 0, g := 0, b := 0, a := 255 }, index := 8,
             structure_index1 := "1,2", structure_index2 := "5" }])],
        _stream := none }
      [{ atom1_idx_arr := [1, 2], atom2_idx_arr := [5],
         atom1_conformation := 0, atom2_conformation := 0,
         kind := InteractionKind.HydrogenBond, visible := true,
         color := { r := 0, g := 0, b := 0, a := 255 }, index := 7,
         structure_index1 := "1,2", structure_index2 := "5" }]).result =
      Except.error () := by
  constructor
  · decide
  · decide

/-- Witness for C2 at a concrete manager: one line with an absent pair key
processed with a warning, and one cached line removed. -/
theorem C2_destroy_lines_behavior_witness :
    (destroy_lines
      { _data := [(get_structpair_key "1,2" "5",
          [{ atom1_idx_arr := [1, 2], atom2_idx_arr := [5],
             atom1_conformation := 0, atom2_conformation := 0,
             kind := InteractionKind.HydrogenBond, visible := true,
             color := { r := 0, g := 0, b := 0, a := 255 }, index := 7,
             structure_index1 := "1,2", structure_index2 := "5" }])],
        _stream := none }
      [{ atom1_idx_arr := [3], atom2_idx_arr := [4],
         atom1_conformation := 0, atom2_conformation := 0,
         kind := InteractionKind.HydrogenBond, visible := true,
         color := { r := 0, g := 0, b := 0, a := 255 }, index := 9,
         structure_index1 := "3", structure_index2 := "4" }]).result =
      Except.ok
        ({ _data := [(get_structpair_key "1,2" "5",
            [{ atom1_idx_arr := [1, 2], atom2_idx_arr := [5],
               atom1_conformation := 0, atom2_conformation := 0,
               kind := InteractionKind.HydrogenBond, visible := true,
               color := { r := 0, g := 0, b := 0, a := 255 }, index := 7,
               structure_index1 := "1,2", structure_index2 := "5" }])],
           _stream := none }, 1) := by
  have h := C2_destroy_lines_behavior
    { _data := [(get_structpair_key "1,2" "5",
        [{ atom1_idx_arr := [1, 2], atom2_idx_arr := [5],
           atom1_conformation := 0, atom2_conformation := 0,
           kind := InteractionKind.HydrogenBond, visible := true,
           color := { r := 0, g := 0, b := 0, a := 255 }, index := 7,
           structure_index1 := "1,2", structure_index2 := "5" }])],
      _stream := none }
    [{ atom1_idx_arr := [3], atom2_idx_arr := [4],
       atom1_conformation := 0, atom2_conformation := 0,
       kind := InteractionKind.HydrogenBond, visible := true,
       color := { r := 0, g := 0, b := 0, a := 255 }, index := 9,
       structure_index1 := "3", structure_index2 := "4" }]
    { atom1_idx_arr := [1, 2], atom2_idx_arr := [5],
      atom1_conformation := 0, atom2_conformation := 0,
      kind := InteractionKind.HydrogenBond, visible := true,
      color := { r := 0, g := 0, b := 0, a := 255 }, index := 7,
      structure_index1 := "1,2", structure_index2 := "5" }
    [{ atom1_idx_arr := [1, 2], atom2_idx_arr := [5],
       atom1_conformation := 0, atom2_conformation := 0,
       kind := InteractionKind.HydrogenBond, visible := true,
       color := { r := 0, g := 0, b := 0, a := 255 }, index := 7,
       structure_index1 := "1,2", structure_index2 := "5" }]
    (by decide) (by decide) (by decide)
  exact h.2.1

/-! ## C1: stream invalidation on structural mutation -/

/-- Concrete fixture line connecting atom groups `[1,2]` and `[5]`. -/
def wLine : InteractionShapesLine :=
  { atom1_idx_arr := [1, 2], atom2_idx_arr := [5],
    atom1_conformation := 0, atom2_conformation := 0,
    kind := InteractionKind.HydrogenBond, visible := true,
    color := { r := 0, g := 0, b := 0, a := 255 }, index := 7,
    structure_index1 := "1,2", structure_index2 := "5" }

/-- The fixture line's pair key. -/
def wKey : String := get_structpair_key_for_line wLine

/-- Atoms 1, 2 and 5 of the fixture complex. -/
def wAtoms : List Atom :=
  [{ index := 1, position := { x := 0, y := 0, z := 0 }, selected := false },
   { index := 2, position := { x := 1, y := 0, z := 0 }, selected := false },
   { index := 5, position := { x := 2, y := 0, z := 0 }, selected := false }]

/-- Concrete fixture complex whose current molecule holds atoms 1, 2, 5. -/
def wCmp : NanoComplex :=
  { name := "c", index := 0, position := { x := 0, y := 0, z := 0 },
    rotation := { x := 0, y := 0, z := 0 }, current_frame := 0,
    molecules := [{ chains := [{ name := "A", residues := [{ index := 1, atoms := wAtoms }] }] }] }

/-- Fixture settings mapping: every kind visible, RGB (10, 20, 30). -/
def wSettings : String → LineSettings :=
  fun _ => { visible := true, color := (10, 20, 30) }

/-- C1, amended: a successful `add_line` insert destroys the stream
synchronously, so the next `update_interaction_lines` call creates a new
stream bound to exactly the current line-index set, in ascending pair-key
order; `destroy_lines`, however, leaves the stream handle untouched. -/
theorem C1_stream_invalidation :
    (∀ (mgr : ShapesLineManager) (line : InteractionShapesLine),
      line.kind ∉
        ((dataFind mgr._data (get_structpair_key_for_line line)).getD []).map
          (fun ln => ln.kind) →
      (add_line mgr line)._stream = none) ∧
    (∀ (mgr : ShapesLineManager) (to_delete : List InteractionShapesLine)
        (m : ShapesLineManager) (w : Nat),
      (destroy_lines mgr to_delete).result = Except.ok (m, w) →
      m._stream = mgr._stream) ∧
    (∀ (mgr : ShapesLineManager) (interactions_data : String → LineSettings)
        (complexes : List NanoComplex) (create : List Nat → Option StreamH),
      mgr._stream = none → complexes ≠ [] → all_lines mgr ≠ [] →
      (∀ idx, create idx = some { indices := idx }) →
      (update_interaction_lines mgr interactions_data complexes create).1._stream =
        some { indices := (all_lines mgr).map (fun line => line.index) } ∧
      List.Pairwise itemKeyLE (List.insertionSort itemKeyLE mgr._data)) := by
  refine ⟨?_, ?_, ?_⟩
  · intro mgr line h
    rw [add_line_insert h]
  · intro mgr to_delete m w h
    revert h
    cases hl : destroyLinesLoop mgr._data 0 to_delete with
    | ok p =>
      obtain ⟨d1, w1⟩ := p
      intro h
      simp only [destroy_lines, hl, Except.ok.injEq, Prod.mk.injEq] at h
      rcases h with ⟨h1, h2⟩
      rw [← h1]
    | error e =>
      intro h
      simp [destroy_lines, hl] at h
  · intro mgr interactions_data complexes create hstream hcne hlne hcreate
    have hc : complexes.isEmpty = false := List.isEmpty_eq_false.mpr hcne
    have hlmap : (all_lines mgr).map (fun line => line.index) ≠ [] := by
      simpa using hlne
    have hli : ((all_lines mgr).map (fun line => line.index)).isEmpty = false :=
      List.isEmpty_eq_false.mpr hlmap
    constructor
    · simp [update_interaction_lines, hc, hli, hstream, hcreate]
    · have := List.sorted_insertionSort itemKeyLE mgr._data
      simpa [List.Sorted] using this

/-- Counterexample for C1 as stated: a `destroy_lines` removal completes
(the line is removed from the cache) yet the stream handle survives the
mutation instead of being destroyed. -/
theorem C1_counterexample :
    (destroy_lines { _data := [(wKey, [wLine])], _stream := some { indices := [7] } }
      [wLine]).result =
      Except.ok ({ _data := [(wKey, [])], _stream := some { indices := [7] } }, 0) ∧
    ({ _data := [(wKey, [])], _stream := some { indices := [7] } } :
      ShapesLineManager)._stream ≠ none := by
  exact ⟨by decide, by decide⟩

/-- Witness for C1 at concrete states: a fresh insert drops the stream, and
the following update binds a new stream to the cache's index list. -/
theorem C1_stream_invalidation_witness :
    (add_line { _data := [], _stream := some { indices := [9] } } wLine)._stream = none ∧
    (update_interaction_lines { _data := [(wKey, [wLine])], _stream := none }
        wSettings [wCmp] (fun idx => some { indices := idx })).1._stream =
      some { indices := (all_lines { _data := [(wKey, [wLine])], _stream := none }).map (fun line => line.index) } := by
  constructor
  · exact C1_stream_invalidation.1 _ wLine (by decide)
  · exact (C1_stream_invalidation.2.2 { _data := [(wKey, [wLine])], _stream := none }
      wSettings [wCmp] (fun idx => some { indices := idx }) rfl (by decide) (by decide)
      (fun idx => rfl)).1

/-! ## C7: error handling of the update pass -/

/-- C7: `update_interaction_lines` with empty `complexes` or an empty cache
logs a warning and returns with the manager unchanged; when no live stream
exists and stream creation returns a falsy handle, the pass aborts with a
logged error, the cache is untouched (no color or visibility writes) and
nothing is pushed to any stream. -/
theorem C7_update_error_handling (mgr : ShapesLineManager)
    (interactions_data : String → LineSettings) (complexes : List NanoComplex)
    (create : List Nat → Option StreamH) :
    (complexes = [] →
      update_interaction_lines mgr interactions_data complexes create =
        (mgr, UpdateResult.warnNoComplexes)) ∧
    (complexes ≠ [] → all_lines mgr = [] →
      update_interaction_lines mgr interactions_data complexes create =
        (mgr, UpdateResult.warnNoLines)) ∧
    (complexes ≠ [] → all_lines mgr ≠ [] → mgr._stream = none →
      create ((all_lines mgr).map (fun line => line.index)) = none →
      (update_interaction_lines mgr interactions_data complexes create).1._data =
        mgr._data ∧
      (update_interaction_lines mgr interactions_data complexes create).2 =
        UpdateResult.errStreamCreate) := by
  refine ⟨?_, ?_, ?_⟩
  · intro hc
    subst hc
    simp [update_interaction_lines]
  · intro hcne hl
    have hc : complexes.isEmpty = false := List.isEmpty_eq_false.mpr hcne
    simp [update_interaction_lines, hc, hl]
  · intro hcne hlne hstream hcreate
    have hc : complexes.isEmpty = false := List.isEmpty_eq_false.mpr hcne
    have hlmap : (all_lines mgr).map (fun line => line.index) ≠ [] := by
      simpa using hlne
    have hli : ((all_lines mgr).map (fun line => line.index)).isEmpty = false :=
      List.isEmpty_eq_false.mpr hlmap
    constructor
    · simp [update_interaction_lines, hc, hli, hstream, hcreate]
    · simp [update_interaction_lines, hc, hli, hstream, hcreate]

/-- Witness for C7 at concrete states: an empty complex list warns, and a
failing stream creation aborts with the cache untouched. -/
theorem C7_update_error_handling_witness :
    update_interaction_lines { _data := [(wKey, [wLine])], _stream := none }
      wSettings [] (fun idx => some { indices := idx }) =
      ({ _data := [(wKey, [wLine])], _stream := none }, UpdateResult.warnNoComplexes) ∧
    (update_interaction_lines { _data := [(wKey, [wLine])], _stream := none }
      wSettings [wCmp] (fun _ => none)).1._data = [(wKey, [wLine])] ∧
    (update_interaction_lines { _data := [(wKey, [wLine])], _stream := none }
      wSettings [wCmp] (fun _ => none)).2 = UpdateResult.errStreamCreate := by
  refine ⟨(C7_update_error_handling { _data := [(wKey, [wLine])], _stream := none }
    wSettings [] (fun idx => some { indices := idx })).1 rfl, ?_, ?_⟩
  · exact ((C7_update_error_handling { _data := [(wKey, [wLine])], _stream := none }
      wSettings [wCmp] (fun _ => none)).2.2 (by decide) (by decide) rfl rfl).1
  · exact ((C7_update_error_handling { _data := [(wKey, [wLine])], _stream := none }
      wSettings [wCmp] (fun _ => none)).2.2 (by decide) (by decide) rfl rfl).2

/-! ## C4: colors written by a completed update pass -/

/-- The color recomputation ignores the line's current color. -/
theorem computeLineColor_recolor (sd : String → LineSettings) (atoms : List Atom)
    (line : InteractionShapesLine) (c : Color) :
    computeLineColor sd atoms { line with color := c } =
      computeLineColor sd atoms line := rfl

/-- Every line cached in `d` carries the color the update loop computes for
it. -/
def colorsUpdated (sd : String → LineSettings) (atoms : List Atom)
    (d : LineData) : Prop :=
  ∀ kv ∈ d, ∀ l ∈ kv.2, l.color = computeLineColor sd atoms l

theorem colorsUpdated_find {sd : String → LineSettings} {atoms : List Atom}
    {d : LineData} (hd : colorsUpdated sd atoms d) (k : String) :
    ∀ l ∈ (dataFind d k).getD [], l.color = computeLineColor sd atoms l := by
  cases hf : dataFind d k with
  | none => simp
  | some v =>
    rcases dataFind_entry_mem hf with ⟨kv, hkv, hv⟩
    intro l hl
    apply hd kv hkv
    rw [hv]
    simpa using hl

theorem colorsUpdated_update_line {sd : String → LineSettings} {atoms : List Atom}
    {d : LineData} (line : InteractionShapesLine)
    (hd : colorsUpdated sd atoms d)
    (hl : line.color = computeLineColor sd atoms line) :
    colorsUpdated sd atoms (_update_line d line) := by
  intro kv hkv l hlmem
  simp only [_update_line] at hkv
  rcases mem_dataSet hkv with heq | hmem
  · subst heq
    simp only at hlmem
    have hlist := colorsUpdated_find hd
      (get_structpair_key line.structure_index1 line.structure_index2)
    rw [dataGetOrInsert_fst] at hlmem
    rcases hfi : ((dataFind d (get_structpair_key line.structure_index1
        line.structure_index2)).getD []).findIdx?
        (fun stored_line => stored_line.index == line.index) with _ | i
    · rw [hfi] at hlmem
      exact hlist l hlmem
    · rw [hfi] at hlmem
      rcases List.mem_or_eq_of_mem_set hlmem with hmem1 | heq1
      · exact hlist l hmem1
      · subst heq1
        exact hl
  · rcases mem_dataGetOrInsert_snd hmem with hmem1 | heq1
    · exact hd kv hmem1 l hlmem
    · subst heq1
      simp at hlmem

theorem colorsUpdated_recolored (sd : String → LineSettings) (atoms : List Atom)
    (d : LineData) :
    colorsUpdated sd atoms (d.map (fun kv =>
      (kv.1, kv.2.map (fun line =>
        { line with color := computeLineColor sd atoms line })))) := by
  intro kv hkv l hl
  rcases List.mem_map.mp hkv with ⟨kv0, _, heq⟩
  subst heq
  simp only at hl
  rcases List.mem_map.mp hl with ⟨l0, _, heq0⟩
  subst heq0
  rfl

theorem colorsUpdated_foldl {sd : String → LineSettings} {atoms : List Atom} :
    ∀ (lines : List InteractionShapesLine) (d : LineData),
      colorsUpdated sd atoms d →
      colorsUpdated sd atoms (lines.foldl (fun d line =>
        _update_line d { line with color := computeLineColor sd atoms line }) d)
  | [], _, hd => hd
  | line :: rest, d, hd => by
    simp only [List.foldl_cons]
    exact colorsUpdated_foldl rest _
      (colorsUpdated_update_line _ hd rfl)

theorem update_ok_colorsUpdated {mgr : ShapesLineManager}
    {interactions_data : String → LineSettings} {complexes : List NanoComplex}
    {create : List Nat → Option StreamH} {buf : List Nat}
    (h : (update_interaction_lines mgr interactions_data complexes create).2 =
      UpdateResult.ok buf) :
    colorsUpdated interactions_data (frame_atoms complexes)
      (update_interaction_lines mgr interactions_data complexes create).1._data := by
  by_cases hc : complexes.isEmpty
  · simp [update_interaction_lines, hc] at h
  · rw [Bool.not_eq_true] at hc
    by_cases hli : ((all_lines mgr).map (fun line => line.index)).isEmpty
    · simp [update_interaction_lines, hc, hli] at h
    · rw [Bool.not_eq_true] at hli
      cases hstream : mgr._stream with
      | some s =>
        simp only [update_interaction_lines, hc, hli, hstream, Bool.false_eq_true,
          if_false] at h ⊢
        exact colorsUpdated_foldl _ _ (colorsUpdated_recolored _ _ _)
      | none =>
        cases hcr : create ((all_lines mgr).map (fun line => line.index)) with
        | none => simp [update_interaction_lines, hc, hli, hstream, hcr] at h
        | some s =>
          simp only [update_interaction_lines, hc, hli, hstream, hcr,
            Bool.false_eq_true, if_false] at h ⊢
          exact colorsUpdated_foldl _ _ (colorsUpdated_recolored _ _ _)

/-- C4: after a completed `update_interaction_lines` pass, every cached line
carries the configured RGB for its kind, with alpha 255 exactly when its
kind is visible and every endpoint atom is in the displayed frame, else
alpha 0. -/
theorem C4_update_colors (mgr : ShapesLineManager)
    (interactions_data : String → LineSettings) (complexes : List NanoComplex)
    (create : List Nat → Option StreamH) (buf : List Nat)
    (h : (update_interaction_lines mgr interactions_data complexes create).2 =
      UpdateResult.ok buf) :
    ∀ kv ∈ (update_interaction_lines mgr interactions_data complexes create).1._data,
      ∀ l ∈ kv.2,
        l.color.r = (interactions_data l.kind.name).color.1 ∧
        l.color.g = (interactions_data l.kind.name).color.2.1 ∧
        l.color.b = (interactions_data l.kind.name).color.2.2 ∧
        l.color.a = (if (interactions_data l.kind.name).visible = true ∧
          line_in_frame l (frame_atoms complexes) = true then 255 else 0) := by
  intro kv hkv l hl
  have hcol := update_ok_colorsUpdated h kv hkv l hl
  rw [hcol]
  unfold computeLineColor
  refine ⟨rfl, rfl, rfl, ?_⟩
  cases hvis : (interactions_data l.kind.name).visible <;>
    cases hf : line_in_frame l (frame_atoms complexes) <;>
      simp [hvis, hf]

/-- Witness for C4 at a concrete completed update. -/
theorem C4_update_colors_witness :
    (update_interaction_lines { _data := [(wKey, [wLine])], _stream := none }
      wSettings [wCmp] (fun idx => some { indices := idx })).2 =
      UpdateResult.ok [10, 20, 30, 255] ∧
    ∀ kv ∈ (update_interaction_lines { _data := [(wKey, [wLine])], _stream := none }
      wSettings [wCmp] (fun idx => some { indices := idx })).1._data,
      ∀ l ∈ kv.2,
        l.color.r = (wSettings l.kind.name).color.1 ∧
        l.color.g = (wSettings l.kind.name).color.2.1 ∧
        l.color.b = (wSettings l.kind.name).color.2.2 ∧
        l.color.a = (if (wSettings l.kind.name).visible = true ∧
          line_in_frame l (frame_atoms [wCmp]) = true then 255 else 0) := by
  refine ⟨by decide, ?_⟩
  exact C4_update_colors { _data := [(wKey, [wLine])], _stream := none }
    wSettings [wCmp] (fun idx => some { indices := idx }) [10, 20, 30, 255] (by decide)

/-! ## C5: binding-site atom selection -/

theorem dist2_self (p : Vec3) : dist2 p p = 0 := by
  simp [dist2]

/-- C5, amended: chains whose name starts with `"H"` are excluded from the
spatial search set, so an atom appears in the result only if its exact
position equals that of some non-`"H"`-chain atom lying within `site_size`
of a ligand atom — an H-chain atom whose position differs from every such
atom is never returned; and a target atom in a non-`"H"` chain of the active
frame located exactly at a ligand atom's position is always included when
`site_size > 0`. -/
theorem C5_binding_site (target_reference : NanoComplex) (ligand_atoms : List Atom)
    (site_size : Int) (mol : Molecule) (ch : Chain) (A la : Atom)
    (hmol : target_reference.molecules.get? target_reference.current_frame = some mol)
    (hch : ch ∈ mol.chains) (hH : pyStartsWith ch.name "H" = false)
    (hA : A ∈ ch.atoms) (hla : la ∈ ligand_atoms) (hpos : la.position = A.position)
    (hsize : 0 < site_size) :
    (∃ res, calculate_binding_site_atoms target_reference ligand_atoms site_size =
        some res ∧ A ∈ res) ∧
    (∀ res, calculate_binding_site_atoms target_reference ligand_atoms site_size =
        some res →
      ∀ a ∈ res,
        ∃ t ∈ (mol.chains.filter (fun c => !(pyStartsWith c.name "H"))).flatMap Chain.atoms,
          t.position = a.position ∧
          ∃ lg ∈ ligand_atoms, inBall t.position lg.position site_size = true) := by
  have hAtarget : A ∈ (mol.chains.filter
      (fun c => !(pyStartsWith c.name "H"))).flatMap Chain.atoms := by
    apply List.mem_flatMap.mpr
    exact ⟨ch, List.mem_filter.mpr ⟨hch, by simp [hH]⟩, hA⟩
  have hne : (mol.chains.filter
      (fun c => !(pyStartsWith c.name "H"))).flatMap Chain.atoms ≠ [] :=
    List.ne_nil_of_mem hAtarget
  have hball : inBall A.position la.position site_size = true := by
    unfold inBall
    rw [hpos, dist2_self]
    simp [le_of_lt hsize, sq_nonneg site_size]
  have hnear : A.position ∈ (ligand_atoms.map (fun atom => atom.position)).flatMap
      (fun lp => (((mol.chains.filter (fun c => !(pyStartsWith c.name "H"))).flatMap
        Chain.atoms).map (fun atom => atom.position)).filter
          (fun tp => inBall tp lp site_size)) := by
    apply List.mem_flatMap.mpr
    refine ⟨la.position, List.mem_map.mpr ⟨la, hla, rfl⟩, ?_⟩
    apply List.mem_filter.mpr
    exact ⟨List.mem_map.mpr ⟨A, hAtarget, rfl⟩, hball⟩
  have hres : calculate_binding_site_atoms target_reference ligand_atoms site_size =
      some (mol.atoms.filter (fun targ_atom =>
        ((ligand_atoms.map (fun atom => atom.position)).flatMap
          (fun lp => (((mol.chains.filter (fun c => !(pyStartsWith c.name "H"))).flatMap
            Chain.atoms).map (fun atom => atom.position)).filter
              (fun tp => inBall tp lp site_size))).contains targ_atom.position)) := by
    simp only [calculate_binding_site_atoms, hmol, List.isEmpty_eq_false.mpr hne]
    rw [if_neg (by simp [List.isEmpty_eq_false.mpr hne])]
  refine ⟨⟨_, hres, ?_⟩, ?_⟩
  · apply List.mem_filter.mpr
    refine ⟨?_, ?_⟩
    · apply List.mem_flatMap.mpr
      exact ⟨ch, hch, hA⟩
    · exact List.elem_eq_true_of_mem hnear
  · intro res h0 a ha
    rw [hres] at h0
    have ha1 : a ∈ mol.atoms.filter (fun targ_atom =>
        ((ligand_atoms.map (fun atom => atom.position)).flatMap
          (fun lp => (((mol.chains.filter (fun c => !(pyStartsWith c.name "H"))).flatMap
            Chain.atoms).map (fun atom => atom.position)).filter
              (fun tp => inBall tp lp site_size))).contains targ_atom.position) := by
      rw [Option.some_inj.mp h0]
      exact ha
    have hcontains := (List.mem_filter.mp ha1).2
    have hmemflat := List.mem_of_elem_eq_true hcontains
    rcases List.mem_flatMap.mp hmemflat with ⟨lp, hlp, hfil⟩
    have hfil1 := List.mem_filter.mp hfil
    rcases List.mem_map.mp hfil1.1 with ⟨t, ht, htp⟩
    rcases List.mem_map.mp hlp with ⟨lg, hlg, hlgp⟩
    refine ⟨t, ht, htp, lg, hlg, ?_⟩
    rw [htp, hlgp]
    exact hfil1.2

/-- Fixture target atom of the non-H chain, at the origin. -/
def c5AtomA : Atom := { index := 1, position := { x := 0, y := 0, z := 0 }, selected := false }

/-- Fixture water atom, in a chain named `"HOH"`, colocated with `c5AtomA`. -/
def c5AtomH : Atom := { index := 2, position := { x := 0, y := 0, z := 0 }, selected := false }

/-- Fixture ligand atom at the origin. -/
def c5Lig : Atom := { index := 3, position := { x := 0, y := 0, z := 0 }, selected := false }

/-- Fixture non-H chain. -/
def c5ChainA : Chain := { name := "A", residues := [{ index := 1, atoms := [c5AtomA] }] }

/-- Fixture H chain (water). -/
def c5ChainH : Chain := { name := "HOH", residues := [{ index := 2, atoms := [c5AtomH] }] }

/-- Fixture target complex holding both chains in its current frame. -/
def c5Cmp : NanoComplex :=
  { name := "t", index := 1, position := { x := 0, y := 0, z := 0 },
    rotation := { x := 0, y := 0, z := 0 }, current_frame := 0,
    molecules := [{ chains := [c5ChainA, c5ChainH] }] }

/-- Counterexample for C5 as stated: the mapping from matched positions back
to atoms scans every atom of the molecule, H chains included, so the
`"HOH"`-chain atom colocated with an in-range target atom appears in the
returned binding-site list. -/
theorem C5_counterexample :
    calculate_binding_site_atoms c5Cmp [c5Lig] 5 = some [c5AtomA, c5AtomH] ∧
    c5AtomH ∈ c5ChainH.atoms ∧ pyStartsWith c5ChainH.name "H" = true ∧
    c5ChainH ∈ ({ chains := [c5ChainA, c5ChainH] } : Molecule).chains := by
  refine ⟨by decide, by decide, by decide, by decide⟩

/-- Witness for C5 at the fixture complex: the colocated non-H target atom
is included. -/
theorem C5_binding_site_witness :
    ∃ res, calculate_binding_site_atoms c5Cmp [c5Lig] 5 = some res ∧ c5AtomA ∈ res := by
  exact (C5_binding_site c5Cmp [c5Lig] 5 { chains := [c5ChainA, c5ChainH] }
    c5ChainA c5AtomA c5Lig (by decide) (by decide) (by decide) (by decide)
    (by decide) (by decide) (by decide)).1

/-! ## C6: chain concatenation in merge_complexes -/

/-- The chain contribution of one input complex to the merged molecule, as
the spec words it: every chain of the complex's current-frame molecule,
unless `selected_atoms_only` is set and the complex is not the reference, in
which case only the chains reconstructed from residues containing at least
one selected atom. -/
def mergedChainContribution (align_reference : NanoComplex)
    (selected_atoms_only : Bool) (comp : NanoComplex) : List Chain :=
  if selected_atoms_only && comp.index != align_reference.index then
    (extract_residues_from_complex comp
      (comp.residues.filter (fun res => res.atoms.any (fun a => a.selected))) none).chains
  else
    ((comp.molecules.get? comp.current_frame).getD { chains := [] }).chains

theorem mergeStep_foldl (align_reference : NanoComplex) (sel : Bool) :
    ∀ (cs : List NanoComplex) (acc : List Chain),
      (∀ comp ∈ cs, (comp.molecules.get? comp.current_frame).isSome) →
      cs.foldl (mergeStep align_reference sel) (some acc) =
        some (acc ++ cs.flatMap (mergedChainContribution align_reference sel))
  | [], acc, _ => by simp
  | c :: rest, acc, h => by
    have hc := h c (List.mem_cons_self c rest)
    rcases Option.isSome_iff_exists.mp hc with ⟨mol, hmol⟩
    have htail := fun x hx => h x (List.mem_cons_of_mem c hx)
    have hstep : mergeStep align_reference sel (some acc) c =
        some (acc ++ mergedChainContribution align_reference sel c) := by
      simp only [mergeStep, align_to, mergedChainContribution]
      rw [hmol]
      split_ifs with hif
      · rfl
      · rfl
    simp only [List.foldl_cons, hstep]
    rw [mergeStep_foldl align_reference sel rest _ htail]
    simp [List.append_assoc]

/-- C6: `merge_complexes` returns a new structure with a single new molecule
whose chains are the concatenation, in input order, of each input complex's
contribution — all current-frame chains when `selected_atoms_only` is false
or the complex is the reference, else only the chains reconstructed from
residues containing a selected atom. -/
theorem C6_merge_concatenates (complexes : List NanoComplex)
    (align_reference : NanoComplex) (selected_atoms_only : Bool)
    (hframes : ∀ comp ∈ complexes, (comp.molecules.get? comp.current_frame).isSome) :
    merge_complexes complexes align_reference selected_atoms_only =
      some { name := "", index := 0, position := { x := 0, y := 0, z := 0 },
             rotation := { x := 0, y := 0, z := 0 }, current_frame := 0,
             molecules := [{ chains := complexes.flatMap (mergedChainContribution align_reference selected_atoms_only) }] } := by
  unfold merge_complexes
  rw [mergeStep_foldl align_reference selected_atoms_only complexes [] hframes]
  simp

/-- Fixture residue of chain `a1`. -/
def c6ResA : Residue :=
  { index := 1, atoms := [{ index := 10, position := { x := 0, y := 0, z := 0 }, selected := false }] }

/-- Fixture chain `a1` of complex `A`. -/
def c6ChainA : Chain := { name := "a1", residues := [c6ResA] }

/-- Fixture residue of chain `b1` holding a selected atom. -/
def c6ResBSel : Residue :=
  { index := 2, atoms := [{ index := 20, position := { x := 1, y := 0, z := 0 }, selected := true }] }

/-- Fixture residue of chain `b1` with no selected atom. -/
def c6ResBUnsel : Residue :=
  { index := 3, atoms := [{ index := 21, position := { x := 2, y := 0, z := 0 }, selected := false }] }

/-- Fixture chain `b1` of complex `B`, with one residue containing a
selected atom and one residue with no selected atom. -/
def c6ChainB : Chain := { name := "b1", residues := [c6ResBSel, c6ResBUnsel] }

/-- Fixture complex `A` (the alignment reference). -/
def c6A : NanoComplex :=
  { name := "A", index := 1, position := { x := 0, y := 0, z := 0 },
    rotation := { x := 0, y := 0, z := 0 }, current_frame := 0,
    molecules := [{ chains := [c6ChainA] }] }

/-- Fixture complex `B`. -/
def c6B : NanoComplex :=
  { name := "B", index := 2, position := { x := 5, y := 0, z := 0 },
    rotation := { x := 0, y := 0, z := 0 }, current_frame := 0,
    molecules := [{ chains := [c6ChainB] }] }

/-- Witness for C6: `merge([A,B], A, False)` yields chains `[a1, b1]` in
input order, and with `selected_atoms_only` the non-reference complex
contributes only the chain rebuilt from its selected residue. -/
theorem C6_merge_concatenates_witness :
    merge_complexes [c6A, c6B] c6A false =
      some { name := "", index := 0, position := { x := 0, y := 0, z := 0 },
             rotation := { x := 0, y := 0, z := 0 }, current_frame := 0,
             molecules := [{ chains := [c6ChainA, c6ChainB] }] } ∧
    merge_complexes [c6A, c6B] c6A true =
      some { name := "", index := 0, position := { x := 0, y := 0, z := 0 },
             rotation := { x := 0, y := 0, z := 0 }, current_frame := 0,
             molecules := [{ chains := [c6ChainA, { name := "b1", residues := [c6ResBSel] }] }] } := by
  constructor
  · exact (C6_merge_concatenates [c6A, c6B] c6A false (by decide)).trans (by decide)
  · exact (C6_merge_concatenates [c6A, c6B] c6A true (by decide)).trans (by decide)
